import Mathlib

/-!
Verification of the R-squared witness key-rotation manager.

Shallow embedding of the rotation orchestrator (`witness_manager.py`), the
sync monitors and the web front-end state (`app.py`).  External
collaborators (subprocesses, the wallet, docker) are modelled by the data
they hand back to the Python code (captured stdout/stderr strings, process
outcomes); the Python logic that scans, parses and branches on that data is
translated function by function.
-/

/-! ## Python string primitives

The Python code manipulates `str` values with `in`, `strip`, `lower`,
`startswith`, `endswith` and `splitlines`.  These are modelled over
`List Char` (ASCII-faithful: the markers scanned for are ASCII). -/

/-- Python whitespace for `\s`, `strip` and `str.splitlines` boundaries
(ASCII subset). -/
def isPySpace (c : Char) : Bool :=
  c = ' ' || c = '\t' || c = '\n' || c = '\r' || c = '\x0b' || c = '\x0c'

/-- Tests whether `needle` occurs as a contiguous sublist of `hay`. -/
def listIsInfixOf (needle : List Char) : List Char → Bool
  | [] => needle.isEmpty
  | hay@(_ :: rest) => needle.isPrefixOf hay || listIsInfixOf needle rest

/-- Python `needle in hay` substring test. -/
def strContains (hay needle : String) : Bool :=
  listIsInfixOf needle.data hay.data

/-- Python `str.strip()` (ASCII whitespace). -/
def pyStrip (s : String) : String :=
  String.mk (((((s.data.dropWhile isPySpace).reverse).dropWhile isPySpace).reverse))

/-- Python `str.lower()` (ASCII letters). -/
def pyLower (s : String) : String :=
  String.mk (s.data.map Char.toLower)

/-- Python `str.startswith`. -/
def pyStartsWith (s pre : String) : Bool := pre.data.isPrefixOf s.data

/-- Python `str.endswith`. -/
def pyEndsWith (s suf : String) : Bool := suf.data.isSuffixOf s.data

/-- Helper for `str.splitlines`: split on `\n`, `\r\n` and `\r`. -/
def splitlinesAux : List Char → List Char → List (List Char)
  | [], acc => if acc.isEmpty then [] else [acc.reverse]
  | '\r' :: '\n' :: rest, acc => acc.reverse :: splitlinesAux rest []
  | '\r' :: rest, acc => acc.reverse :: splitlinesAux rest []
  | '\n' :: rest, acc => acc.reverse :: splitlinesAux rest []
  | c :: rest, acc => splitlinesAux rest (c :: acc)

/-- Python `str.splitlines()`. -/
def pySplitlines (s : String) : List String :=
  (splitlinesAux s.data []).map String.mk

/-! ## JSON values and `json.loads`

`witness_manager.py` calls `json.loads` on single wallet-output lines
(`extract_witness_id`) and on the key-generation output
(`perform_key_rotation`).  The parser below follows Python's `json`
module: the four JSON whitespace characters, strict strings (raw control
characters rejected), numbers kept as their raw token, objects as ordered
field lists (duplicate keys: the last one wins, as for a Python `dict`). -/

inductive Json where
  | str (s : String)
  | num (raw : String)
  | bool (b : Bool)
  | null
  | obj (fields : List (String × Json))
  | arr (elems : List Json)
  deriving Repr

/-- Python-`dict` field lookup: the last binding for a duplicated key wins. -/
def jsonObjGet (fields : List (String × Json)) (k : String) : Option Json :=
  fields.foldl (fun acc f => if f.1 = k then some f.2 else acc) none

/-- JSON whitespace per Python's `json` module. -/
def isJsonWs (c : Char) : Bool := c = ' ' || c = '\t' || c = '\n' || c = '\r'

def jsonSkipWs (cs : List Char) : List Char := cs.dropWhile isJsonWs

/-- Parse the escape tail after a backslash inside a JSON string. -/
def jsonParseEscape : List Char → Option (Char × List Char)
  | '"' :: rest => some ('"', rest)
  | '\\' :: rest => some ('\\', rest)
  | '/' :: rest => some ('/', rest)
  | 'b' :: rest => some ('\x08', rest)
  | 'f' :: rest => some ('\x0c', rest)
  | 'n' :: rest => some ('\n', rest)
  | 'r' :: rest => some ('\r', rest)
  | 't' :: rest => some ('\t', rest)
  | _ => none

/-- Hex digit test (ASCII). -/
def isHexDigitChar (c : Char) : Bool :=
  c.isDigit || ('a' ≤ c && c ≤ 'f') || ('A' ≤ c && c ≤ 'F')

/-- Hex digit value. -/
def hexVal (c : Char) : Nat :=
  if c.isDigit then c.toNat - '0'.toNat
  else if 'a' ≤ c && c ≤ 'f' then c.toNat - 'a'.toNat + 10
  else if 'A' ≤ c && c ≤ 'F' then c.toNat - 'A'.toNat + 10
  else 0

/-- JSON string body: characters until the closing quote, with escapes;
raw control characters are rejected (Python strict mode). -/
def jsonParseStringBody : Nat → List Char → List Char → Option (String × List Char)
  | 0, _, _ => none
  | _ + 1, acc, '"' :: rest => some (String.mk acc.reverse, rest)
  | fuel + 1, acc, '\\' :: tail =>
    match tail with
    | 'u' :: h1 :: h2 :: h3 :: h4 :: rest =>
      if isHexDigitChar h1 && isHexDigitChar h2 && isHexDigitChar h3 && isHexDigitChar h4 then
        let v := ((hexVal h1 * 16 + hexVal h2) * 16 + hexVal h3) * 16 + hexVal h4
        jsonParseStringBody fuel (Char.ofNat v :: acc) rest
      else none
    | _ =>
      match jsonParseEscape tail with
      | some (c, rest) => jsonParseStringBody fuel (c :: acc) rest
      | none => none
  | fuel + 1, acc, c :: rest =>
    if c.toNat < 32 then none else jsonParseStringBody fuel (c :: acc) rest
  | _ + 1, _, [] => none

/-- JSON number token after the optional sign: `0|[1-9]\d*` then optional
fraction and exponent, per Python's `NUMBER_RE`.  Returns the raw token. -/
def jsonParseNumTail (cs : List Char) : Option (List Char × List Char) :=
  let intPart : Option (List Char × List Char) :=
    match cs with
    | '0' :: rest => some (['0'], rest)
    | c :: rest =>
      if c.isDigit then
        let ds := rest.takeWhile Char.isDigit
        some (c :: ds, rest.drop ds.length)
      else none
    | [] => none
  match intPart with
  | none => none
  | some (ip, rest1) =>
    let (fp, rest2) : List Char × List Char :=
      match rest1 with
      | '.' :: d :: tl =>
        if d.isDigit then
          let ds := tl.takeWhile Char.isDigit
          ('.' :: d :: ds, tl.drop ds.length)
        else ([], rest1)
      | _ => ([], rest1)
    let (ep, rest3) : List Char × List Char :=
      match rest2 with
      | e :: tl =>
        if e = 'e' || e = 'E' then
          match tl with
          | s :: d :: tl2 =>
            if (s = '+' || s = '-') && d.isDigit then
              let ds := tl2.takeWhile Char.isDigit
              (e :: s :: d :: ds, tl2.drop ds.length)
            else if s.isDigit then
              let ds := tl.takeWhile Char.isDigit
              (e :: ds, tl.drop ds.length)
            else ([], rest2)
          | [d] =>
            if d.isDigit then (e :: [d], []) else ([], rest2)
          | [] => ([], rest2)
        else ([], rest2)
      | [] => ([], rest2)
    some (ip ++ fp ++ ep, rest3)

mutual

/-- Parse one JSON value (whitespace already allowed before it). -/
def jsonParseValue : Nat → List Char → Option (Json × List Char)
  | 0, _ => none
  | fuel + 1, cs =>
    match jsonSkipWs cs with
    | '"' :: rest =>
      match jsonParseStringBody (rest.length + 1) [] rest with
      | some (s, rest') => some (.str s, rest')
      | none => none
    | '{' :: rest => jsonParseMembers fuel rest true []
    | '[' :: rest => jsonParseElems fuel rest true []
    | 't' :: 'r' :: 'u' :: 'e' :: rest => some (.bool true, rest)
    | 'f' :: 'a' :: 'l' :: 's' :: 'e' :: rest => some (.bool false, rest)
    | 'n' :: 'u' :: 'l' :: 'l' :: rest => some (.null, rest)
    | 'N' :: 'a' :: 'N' :: rest => some (.num "NaN", rest)
    | 'I' :: 'n' :: 'f' :: 'i' :: 'n' :: 'i' :: 't' :: 'y' :: rest =>
      some (.num "Infinity", rest)
    | '-' :: 'I' :: 'n' :: 'f' :: 'i' :: 'n' :: 'i' :: 't' :: 'y' :: rest =>
      some (.num "-Infinity", rest)
    | '-' :: rest =>
      match jsonParseNumTail rest with
      | some (tok, rest') => some (.num (String.mk ('-' :: tok)), rest')
      | none => none
    | cs' =>
      match jsonParseNumTail cs' with
      | some (tok, rest') => some (.num (String.mk tok), rest')
      | none => none

/-- Object members after `{`; `first` marks that `}` may close immediately. -/
def jsonParseMembers :
    Nat → List Char → Bool → List (String × Json) → Option (Json × List Char)
  | 0, _, _, _ => none
  | fuel + 1, cs, first, acc =>
    match jsonSkipWs cs with
    | '}' :: rest => if first then some (.obj acc.reverse, rest) else none
    | '"' :: rest =>
      match jsonParseStringBody (rest.length + 1) [] rest with
      | some (k, rest1) =>
        match jsonSkipWs rest1 with
        | ':' :: rest2 =>
          match jsonParseValue fuel rest2 with
          | some (v, rest3) =>
            match jsonSkipWs rest3 with
            | ',' :: rest4 => jsonParseMembers fuel rest4 false ((k, v) :: acc)
            | '}' :: rest4 => some (.obj ((k, v) :: acc).reverse, rest4)
            | _ => none
          | none => none
        | _ => none
      | none => none
    | _ => none

/-- Array elements after `[`. -/
def jsonParseElems : Nat → List Char → Bool → List Json → Option (Json × List Char)
  | 0, _, _, _ => none
  | fuel + 1, cs, first, acc =>
    match jsonSkipWs cs with
    | ']' :: rest => if first then some (.arr acc.reverse, rest) else none
    | cs' =>
      match jsonParseValue fuel cs' with
      | some (v, rest1) =>
        match jsonSkipWs rest1 with
        | ',' :: rest2 => jsonParseElems fuel rest2 false (v :: acc)
        | ']' :: rest2 => some (.arr (v :: acc).reverse, rest2)
        | _ => none
      | none => none

end

/-- Python `json.loads`: one value, then only trailing whitespace. -/
def jsonLoads (s : String) : Option Json :=
  match jsonParseValue (s.data.length + 2) s.data with
  | some (v, rest) => if (jsonSkipWs rest).isEmpty then some v else none
  | none => none

/-! ## Occurrence search helpers (for Python `re` scans)

The Python code uses `re.findall`/`re.search` with fixed patterns.  Their
leftmost-match (and greedy/lazy backtracking) semantics are realised by
scanning candidate positions in the engine's priority order. -/

/-- Positions (ascending) at which `needle` starts inside `cs`. -/
def occurrencesAux (needle : List Char) : List Char → Nat → List Nat
  | [], _ => []
  | cs@(_ :: rest), i =>
    (if needle.isPrefixOf cs then [i] else []) ++ occurrencesAux needle rest (i + 1)

/-- Positions (ascending) of a nonempty `needle` inside `cs`. -/
def occurrencesOf (needle cs : List Char) : List Nat := occurrencesAux needle cs 0

/-- Least index `w ≥ start` with `p (cs[w])`. -/
def findIdxFrom (p : Char → Bool) (cs : List Char) (start : Nat) : Option Nat :=
  match (cs.drop start).findIdx? p with
  | some j => some (start + j)
  | none => none

/-- Index just past a maximal run of `\s*` starting at `i`. -/
def skipWsFrom (cs : List Char) (i : Nat) : Nat :=
  i + ((cs.drop i).takeWhile isPySpace).length

/-- The slice `cs[a:b]` as a string. -/
def sliceStr (cs : List Char) (a b : Nat) : String :=
  String.mk ((cs.drop a).take (b - a))

/-! ## `extract_witness_id` (witness_manager.py lines 691-718)

Three tiers: per-line JSON records, the regex `"id":\s*"(1\.6\.\d+)"`, and
the bare regex `1\.6\.\d+` (in each regex tier, `findall(...)[0]`, i.e. the
leftmost match). -/

/-- Tier 1 test for one output line: strip it, require it to look like a
self-contained JSON record (`{...}`), parse it, and accept a string `"id"`
field starting with `"1.6."`. -/
def witnessIdOfLine (line : String) : Option String :=
  let l := pyStrip line
  if pyStartsWith l "\x7b" && pyEndsWith l "\x7d" then
    match jsonLoads l with
    | some (Json.obj fields) =>
      match jsonObjGet fields "id" with
      | some (Json.str cid) => if pyStartsWith cid "1.6." then some cid else none
      | _ => none
    | _ => none
  else none

/-- Tier 1: first line whose JSON record yields a witness id. -/
def witnessIdJsonTier (wallet_output : String) : Option String :=
  (pySplitlines wallet_output).findSome? witnessIdOfLine

/-- Tier 2: leftmost match of `"id":\s*"(1\.6\.\d+)"` over the whole output. -/
def witnessIdRegexTier (wallet_output : String) : Option String :=
  let cs := wallet_output.data
  (occurrencesOf "\"id\":".data cs).findSome? fun i =>
    let q := skipWsFrom cs (i + 5)
    match cs.get? q with
    | some '"' =>
      if "1.6.".data.isPrefixOf (cs.drop (q + 1)) then
        let ds := (cs.drop (q + 5)).takeWhile Char.isDigit
        if !ds.isEmpty && cs.get? (q + 5 + ds.length) = some '"' then
          some (String.mk ("1.6.".data ++ ds))
        else none
      else none
    | _ => none

/-- Tier 3 scan: leftmost match of the bare pattern `1\.6\.\d+`. -/
def witnessIdBareAux : List Char → Option String
  | [] => none
  | cs@(_ :: rest) =>
    if "1.6.".data.isPrefixOf cs then
      let ds := (cs.drop 4).takeWhile Char.isDigit
      if ds.isEmpty then witnessIdBareAux rest
      else some (String.mk ("1.6.".data ++ ds))
    else witnessIdBareAux rest

/-- Tier 3: bare substring fallback. -/
def witnessIdBareTier (wallet_output : String) : Option String :=
  witnessIdBareAux wallet_output.data

/-- Model of `extract_witness_id` (witness_manager.py lines 691-718): the JSON-line
loop first, then the two regex fallbacks, each tried only if the previous
tier left `witness_id` unset. -/
def extract_witness_id (wallet_output : String) : Option String :=
  let w1 := witnessIdJsonTier wallet_output
  let w2 := match w1 with
    | some i => some i
    | none => witnessIdRegexTier wallet_output
  match w2 with
  | some i => some i
  | none => witnessIdBareTier wallet_output

/-! ## `datetime.strptime(s, "%Y-%m-%dT%H:%M:%S")` and epoch seconds

CPython's `_strptime` compiles the format to a regex: `%Y` is exactly four
digits, the other fields one or two digits restricted to their calendar
ranges; the whole string must be consumed.  The `datetime` constructor then
additionally requires `1 <= year`, `second <= 59` and a day valid for the
month (proleptic Gregorian).  The result is compared to wall-clock time in
seconds, so the model converts directly to seconds since the Unix epoch. -/

/-- One calendar field: two digits (value in `[lo2, hi2]`) when two digits
are present — a one-digit parse would leave a digit where the next literal
separator is expected — else one digit in `[lo1, hi1]`. -/
def parseCalField (lo2 hi2 lo1 hi1 : Nat) : List Char → Option (Nat × List Char)
  | c1 :: c2 :: rest =>
    if c1.isDigit && c2.isDigit then
      let v := (c1.toNat - '0'.toNat) * 10 + (c2.toNat - '0'.toNat)
      if lo2 ≤ v && v ≤ hi2 then some (v, rest) else none
    else if c1.isDigit then
      let v := c1.toNat - '0'.toNat
      if lo1 ≤ v && v ≤ hi1 then some (v, c2 :: rest) else none
    else none
  | [c1] =>
    if c1.isDigit then
      let v := c1.toNat - '0'.toNat
      if lo1 ≤ v && v ≤ hi1 then some (v, []) else none
    else none
  | [] => none

def expectChar (c : Char) : List Char → Option (List Char)
  | c' :: rest => if c' = c then some rest else none
  | [] => none

/-- Gregorian leap year. -/
def isLeapYear (y : Nat) : Bool := (y % 4 = 0 && y % 100 ≠ 0) || y % 400 = 0

/-- Length of month `m` in year `y`. -/
def daysInMonth (y m : Nat) : Nat :=
  if m = 2 then (if isLeapYear y then 29 else 28)
  else if m = 4 || m = 6 || m = 9 || m = 11 then 30
  else 31

/-- Days from 1970-01-01 to `y-m-d` in the proleptic Gregorian calendar
(`y ≥ 1`), following the standard days-from-civil computation. -/
def daysFromCivil (y m d : Nat) : Int :=
  let y' := if m ≤ 2 then y - 1 else y
  let era := y' / 400
  let yoe := y' % 400
  let mp := if 2 < m then m - 3 else m + 9
  let doy := (153 * mp + 2) / 5 + d - 1
  let doe := yoe * 365 + yoe / 4 - yoe / 100 + doy
  (era * 146097 + doe : Nat) - (719468 : Int)

/-- Seconds since the Unix epoch of a UTC civil datetime. -/
def civilToEpoch (y m d h mi s : Nat) : Int :=
  daysFromCivil y m d * 86400 + (h * 3600 + mi * 60 + s : Nat)

/-- Model of `datetime.strptime(s, "%Y-%m-%dT%H:%M:%S")` with UTC attached, returned
as seconds since the epoch; `none` models the `ValueError` the callers
catch and skip. -/
def parseBlockTime (s : String) : Option Int :=
  let cs := s.data
  match cs with
  | y1 :: y2 :: y3 :: y4 :: rest =>
    if y1.isDigit && y2.isDigit && y3.isDigit && y4.isDigit then
      let y := ((y1.toNat - '0'.toNat) * 10 + (y2.toNat - '0'.toNat)) * 100 +
               (y3.toNat - '0'.toNat) * 10 + (y4.toNat - '0'.toNat)
      match expectChar '-' rest with
      | none => none
      | some r1 =>
      match parseCalField 1 12 1 9 r1 with
      | none => none
      | some (m, r2) =>
      match expectChar '-' r2 with
      | none => none
      | some r3 =>
      match parseCalField 1 31 1 9 r3 with
      | none => none
      | some (d, r4) =>
      match expectChar 'T' r4 with
      | none => none
      | some r5 =>
      match parseCalField 0 23 0 9 r5 with
      | none => none
      | some (h, r6) =>
      match expectChar ':' r6 with
      | none => none
      | some r7 =>
      match parseCalField 0 59 0 9 r7 with
      | none => none
      | some (mi, r8) =>
      match expectChar ':' r8 with
      | none => none
      | some r9 =>
      match parseCalField 0 61 0 9 r9 with
      | none => none
      | some (sec, r10) =>
        -- the full string must be consumed, and the datetime constructor
        -- validates year >= 1, second <= 59 and the day against the month
        if r10.isEmpty && 1 ≤ y && sec ≤ 59 && d ≤ daysInMonth y m then
          some (civilToEpoch y m d h mi sec)
        else none
    else none
  | _ => none

/-! ## Sync monitors (app.py)

`monitor_docker_logs` (lines 173-232) consumes the node's log stream line
by line; `monitor_native_node_sync` (lines 234-284) polls `get_info`
through the wallet, at most 120 attempts 60 seconds apart.  Wall-clock time
(`datetime.now`) is modelled by a fixed `now` in epoch seconds; the
monitors' effect is whether a "synced" report terminates them. -/

/-- The capture of `re.search(r'handle_block.*Got block: #\d+.*time: (.*?)\s', line)`:
the match starts at the first `handle_block` occurrence from which the rest
of the pattern can be completed; both `.*` are greedy (so the rightmost
feasible `Got block: #` and `time: ` are preferred), `(.*?)\s` is lazy (the
capture ends at the first following whitespace). -/
def handleBlockCapture (line : String) : Option String :=
  let cs := line.data
  (occurrencesOf "handle_block".data cs).findSome? fun i =>
    ((occurrencesOf "Got block: #".data cs).filter (fun j => i + 12 ≤ j)).reverse.findSome?
      fun j =>
        match cs.get? (j + 12) with
        | some c =>
          if c.isDigit then
            ((occurrencesOf "time: ".data cs).filter (fun k => j + 13 ≤ k)).reverse.findSome?
              fun k =>
                match findIdxFrom isPySpace cs (k + 6) with
                | some w => some (sliceStr cs (k + 6) w)
                | none => none
          else none
        | none => none

/-- Model of the `monitor_docker_logs` body as processed over the stream's lines:
each line is stripped; empty lines only feed the stale-stream poll; a
`Done reindexing` marker or a parsed block time within 300 seconds of
`now` ends monitoring with a synced report; anything else (including a
malformed timestamp, `except ValueError: continue`) moves to the next
line; end of stream means no synced report. -/
def monitor_docker_logs (now : Int) : List String → Bool
  | [] => false
  | line :: rest =>
    let l := pyStrip line
    if l = "" then monitor_docker_logs now rest
    else if strContains l "Done reindexing" then true
    else
      match handleBlockCapture l with
      | some ts =>
        match parseBlockTime ts with
        | some t => if (now - t).natAbs < 300 then true else monitor_docker_logs now rest
        | none => monitor_docker_logs now rest
      | none => monitor_docker_logs now rest

/-- The block-time sample one log line yields: the `handle_block` regex
capture fed through `strptime`, `none` when either step fails. -/
def lineBlockSample (line : String) : Option Int :=
  match handleBlockCapture (pyStrip line) with
  | some ts => parseBlockTime ts
  | none => none

/-- One `get_info` probe: the two streams `run_command` hands back
(stripped, as `run_command` strips them). -/
structure Probe where
  stdout : String
  stderr : String

/-- The capture of `re.search(r'"head_block_time":\s*"([^"]+)"', stdout)`:
leftmost `"head_block_time":`, optional whitespace, then a nonempty
quote-delimited capture. -/
def headBlockTimeCapture (s : String) : Option String :=
  let cs := s.data
  (occurrencesOf "\"head_block_time\":".data cs).findSome? fun i =>
    let q := skipWsFrom cs (i + 18)
    match cs.get? q with
    | some '"' =>
      match findIdxFrom (fun c => c = '"') cs (q + 1) with
      | some e => if q + 1 < e then some (sliceStr cs (q + 1) e) else none
      | none => none
    | _ => none

/-- The head-block sample one polling probe yields: skipped entirely on a
transport error in stderr, requires the `head_block_time` marker, the
regex capture and a parseable timestamp. -/
def probeSample (p : Probe) : Option Int :=
  let out := pyStrip p.stdout
  let err := pyStrip p.stderr
  if strContains err "Underlying Transport Error" then none
  else if strContains out "head_block_time" then
    match headBlockTimeCapture out with
    | some ts => parseBlockTime ts
    | none => none
  else none

/-- Whether one probe's sample is inside the 300-second freshness window. -/
def probeInWindow (now : Int) (p : Probe) : Bool :=
  match probeSample p with
  | some t => (now - t).natAbs < 300
  | none => false

inductive NativeSyncResult where
  | synced
  | softTimeout
  deriving Repr, DecidableEq

/-- The `while attempt < max_attempts` loop of `monitor_native_node_sync`:
probe `attempt`, stop with a synced report when the sample is in the
window, otherwise sleep and move to the next attempt. -/
def monitorNativeGo (now : Int) (probes : Nat → Probe) : Nat → Nat → NativeSyncResult
  | 0, _ => .softTimeout
  | fuel + 1, attempt =>
    if probeInWindow now (probes attempt) then .synced
    else monitorNativeGo now probes fuel (attempt + 1)

/-- Model of `monitor_native_node_sync` (app.py lines 234-284): at most
`max_attempts = 120` probes; exhausting them degrades to a soft-timeout
report and a normal return. -/
def monitor_native_node_sync (now : Int) (probes : Nat → Probe) : NativeSyncResult :=
  monitorNativeGo now probes 120 0

/-! ## `perform_key_rotation` (witness_manager.py lines 928-999)

The orchestrator's branching is entirely driven by the text the external
processes hand back; a `RotationEnv` packages those captured streams (raw,
as `subprocess` delivers them; the helpers' `.strip()` is applied inside).
`relaunch_ok` records whether the final `launch_witness_node` call
succeeds — the source discards that Boolean (lines 994-999), which the
model mirrors by never inspecting the field. -/

structure RotationEnv where
  /-- stdout of the verification wallet script (set_password/unlock/import_key/get_witness). -/
  verify_stdout : String
  verify_stderr : String
  /-- stdout of `cli_wallet --suggest-brain-key`. -/
  keygen_stdout : String
  keygen_stderr : String
  /-- stdout of the `update_witness` authorization script. -/
  auth_stdout : String
  auth_stderr : String
  /-- whether the final node relaunch succeeds (ignored by the source). -/
  relaunch_ok : Bool

/-- Line 943: `"Invalid private key" in stdout or "exception" in stdout`. -/
def verifyFails (stdout : String) : Bool :=
  strContains stdout "Invalid private key" || strContains stdout "exception"

/-- Line 982: `"exception" in auth_stdout or "error" in auth_stdout.lower()
or "error" in auth_stderr.lower()`. -/
def authRejected (auth_stdout auth_stderr : String) : Bool :=
  strContains auth_stdout "exception" ||
  strContains (pyLower auth_stdout) "error" ||
  strContains (pyLower auth_stderr) "error"

/-- Lines 960-965: `json.loads(key_json)` then `keys['pub_key'],
keys['wif_priv_key']`.  `JSONDecodeError` and `KeyError` are caught
(`.ok none`); subscripting a decoded non-dict raises an uncaught
`TypeError` (`.error`). -/
def parseNewKeys (key_json : String) : Except Unit (Option (Json × Json)) :=
  match jsonLoads key_json with
  | none => .ok none
  | some (Json.obj fields) =>
    match jsonObjGet fields "pub_key", jsonObjGet fields "wif_priv_key" with
    | some p, some w => .ok (some (p, w))
    | _, _ => .ok none
  | some _ => .error ()

/-- Model of `perform_key_rotation`: returns `(success, new_pub_key, new_wif_key)`;
`.error` is the uncaught-exception path.  Every failure return in the
source is the literal `False, None, None`; the lone success return is
`True, new_pub_key, new_wif_key` after the relaunch whose outcome is not
inspected. -/
def perform_key_rotation (env : RotationEnv) :
    Except Unit (Bool × Option Json × Option Json) :=
  let stdout := pyStrip env.verify_stdout
  if verifyFails stdout then .ok (false, none, none)
  else
    match extract_witness_id stdout with
    | none => .ok (false, none, none)
    | some _witness_id =>
      match parseNewKeys (pyStrip env.keygen_stdout) with
      | .error e => .error e
      | .ok none => .ok (false, none, none)
      | .ok (some (new_pub_key, new_wif_key)) =>
        let auth_stdout := pyStrip env.auth_stdout
        let auth_stderr := pyStrip env.auth_stderr
        if authRejected auth_stdout auth_stderr then .ok (false, none, none)
        else
          -- stop_witness_node; launch_witness_node(...): return value unused
          .ok (true, some new_pub_key, some new_wif_key)

/-- An environment in which every step's output is clean: the witness id
resolves, the keypair parses, authorization shows no markers — and the
relaunch fails. -/
def envRelaunchFail : RotationEnv where
  verify_stdout := "\x7b\"id\": \"1.6.42\", \"witness_account\": \"1.2.5\"\x7d"
  verify_stderr := ""
  keygen_stdout := "\x7b\"pub_key\": \"PUB1\", \"wif_priv_key\": \"WIF1\"\x7d"
  keygen_stderr := ""
  auth_stdout := "broadcasting"
  auth_stderr := ""
  relaunch_ok := false

/-! ## Node launch / teardown (witness_manager.py lines 446-497, 608-654)

A `NodeWorld` tracks the shared NodeHandle resources: whether the docker
container `rsquared-node` exists, the pids of running native
`witness_node` processes, and the sidecar pid file.  Launch and stop are
the source's effect on this state: the collaborators' semantics are that
`docker stop`+`docker rm NODE_NAME` remove the named container,
`docker run -d --name NODE_NAME` creates it, `subprocess.Popen` spawns a
fresh process, and `kill pid` terminates it. -/

structure NodeWorld where
  dockerNode : Bool
  nativePids : List Nat
  pidFile : Option Nat
  deriving Repr, DecidableEq

/-- Lines 451-452: `docker stop NODE_NAME; docker rm NODE_NAME` (quiet,
tolerating an absent container). -/
def dockerStopRemove (w : NodeWorld) : NodeWorld := { w with dockerNode := false }

/-- Lines 464-469: `docker run -d --name NODE_NAME ...` via
`build_docker_command_from_config`. -/
def dockerRunCreate (w : NodeWorld) : NodeWorld := { w with dockerNode := true }

/-- Model of `launch_docker_witness_node`: stop and remove the existing container,
then `docker run` the new one. -/
def launch_docker_witness_node (w : NodeWorld) : NodeWorld :=
  dockerRunCreate (dockerStopRemove w)

/-- Model of `launch_native_witness_node` (the binding at lines 608-654): spawn a
fresh `witness_node` process — no stop, no kill of any prior instance —
and, if it survives the 3-second poll (`spawnOk`), record its pid in the
sidecar pid file. -/
def launch_native_witness_node (w : NodeWorld) (newPid : Nat) (spawnOk : Bool) :
    NodeWorld :=
  if spawnOk then
    { w with nativePids := newPid :: w.nativePids, pidFile := some newPid }
  else w

/-- Model of `stop_witness_node` (lines 656-674), native branch: kill the pid from
the sidecar file, if any, and delete the file. -/
def stop_native_witness_node (w : NodeWorld) : NodeWorld :=
  match w.pidFile with
  | some pid => { w with nativePids := w.nativePids.filter (· ≠ pid), pidFile := none }
  | none => w

/-! ## Service password file (witness_manager.py lines 755-778)

Byte-level model (`password.encode('utf-8')` / `.decode('utf-8')` are a
round trip on the byte list): the file is a 32-byte salt followed by the
password XORed with the salt repeated to the password's length. -/

/-- The keystream `(salt * ((n // len(salt)) + 1))[:n]`. -/
def xorKeystream (salt : List Nat) (n : Nat) : List Nat :=
  (List.flatten (List.replicate (n / salt.length + 1) salt)).take n

/-- Model of `create_secure_password_file`: the bytes written to
`.witness_service_key` for a given password and the 32-byte salt drawn
from `os.urandom(32)`. -/
def create_secure_password_file (password_bytes salt : List Nat) : List Nat :=
  let encrypted := (password_bytes.zip (xorKeystream salt password_bytes.length)).map
    fun ab => ab.1 ^^^ ab.2
  salt ++ encrypted

/-- Model of `read_secure_password_file`: reject files shorter than the salt, split
off the 32-byte salt, XOR the rest with the same keystream. -/
def read_secure_password_file (data : List Nat) : Option (List Nat) :=
  if data.length < 32 then none
  else
    let salt := data.take 32
    let encrypted := data.drop 32
    some ((encrypted.zip (xorKeystream salt encrypted.length)).map fun ab => ab.1 ^^^ ab.2)

/-! ## Web UI state (app.py lines 76-346)

The module-level mutable state the routes share: `generated_keys` (empty
dict or the last stored keypair) and whether the worker thread is alive.
`start_process` rejects a request while a run is live, otherwise clears the
stored keys and starts the thread; the thread body sets the keys only on a
fully successful rotation; `get_keys` answers from `generated_keys`. -/

structure WebState where
  /-- The `generated_keys` dict: `none` is the empty dict. -/
  generated_keys : Option (String × String)
  /-- whether `process_thread` is alive. -/
  running : Bool
  deriving Repr, DecidableEq

/-- Model of the `/start` route (lines 294-319): second component is whether the request was
accepted (False models the 400 "A process is already running" reply). -/
def start_process (s : WebState) : WebState × Bool :=
  if s.running then (s, false)
  else ({ generated_keys := none, running := true }, true)

/-- Completion of `run_key_rotation_process` (lines 86-160): on
`success and new_pub_key and new_wif_key` the keypair is stored in
`generated_keys`, otherwise the keys stay cleared; the thread then dies. -/
def finish_process (_s : WebState) (outcome : Option (String × String)) : WebState :=
  { generated_keys := outcome, running := false }

/-- Model of the `/get-keys` route (lines 338-346): `some` is the 200 reply with the keys,
`none` the 404 "No keys available" reply. -/
def get_keys (s : WebState) : Option (String × String) :=
  s.generated_keys

/-! ## Concrete environments used as witnesses/counterexamples -/

/-- Variant of `envRelaunchFail` with the authorization output replaced by
`"EXCEPTION"` (and a relaunch that works). -/
def envAuthUpperExc : RotationEnv :=
  { envRelaunchFail with auth_stdout := "EXCEPTION", relaunch_ok := true }

/-- Variant of `envRelaunchFail` with a verification output reporting an invalid key
next to an identifier-like substring. -/
def envInvalidKey : RotationEnv :=
  { envRelaunchFail with verify_stdout := "Invalid private key near 1.6.99" }

/-- A probe whose stderr carries the transport-error marker: the node is
not yet accepting connections. -/
def probeNotReady : Probe := ⟨"", "Underlying Transport Error: could not connect"⟩

/-! ## Theorems -/

/-- Claim C1 (corrected), counterexample: in a run where verification, key
generation and authorization all succeed but the relaunch fails,
`perform_key_rotation` does **not** terminate in a distinct
`Failed(RelaunchError)` state: it returns plain success with the new keys,
the very same result as when the relaunch succeeds. -/
theorem c1_relaunch_failure_counterexample :
    envRelaunchFail.relaunch_ok = false ∧
    perform_key_rotation envRelaunchFail =
      .ok (true, some (Json.str "PUB1"), some (Json.str "WIF1")) ∧
    perform_key_rotation envRelaunchFail =
      perform_key_rotation { envRelaunchFail with relaunch_ok := true } :=
  ⟨rfl, rfl, rfl⟩

/-- Claim C1 (amended): the relaunch outcome is never inspected — for every
rotation run the result is identical whether the relaunch fails or
succeeds, and in a run where all wallet steps succeed but the relaunch
fails the new public and private keys are still returned, marked as plain
success. -/
theorem c1_amended_relaunch_result_ignored :
    (∀ env : RotationEnv,
      perform_key_rotation { env with relaunch_ok := false } =
        perform_key_rotation { env with relaunch_ok := true }) ∧
    perform_key_rotation envRelaunchFail =
      .ok (true, some (Json.str "PUB1"), some (Json.str "WIF1")) :=
  ⟨fun env => by cases env; rfl, rfl⟩

/-- Claim C2 (corrected), counterexample: on the native backend a start in
listener mode immediately followed by a second start leaves two
concurrently running `witness_node` processes — the second launch never
stops the pid recorded by the first. -/
theorem c2_native_double_start_counterexample :
    (launch_native_witness_node
      (launch_native_witness_node ⟨false, [], none⟩ 100 true) 101 true).nativePids =
      [101, 100] := by decide

/-- Claim C2 (amended): only the containerized backend tears down the
existing instance before creating the new one (an idempotent replace of
the single named container); the native backend spawns a fresh process and
overwrites the pid file without stopping the previous instance, so every
prior native pid keeps running. -/
theorem c2_amended_docker_replaces_native_accumulates :
    (∀ w : NodeWorld,
      (launch_docker_witness_node w).dockerNode = true ∧
      launch_docker_witness_node (launch_docker_witness_node w) =
        launch_docker_witness_node w ∧
      (launch_docker_witness_node w).nativePids = w.nativePids) ∧
    (∀ (w : NodeWorld) (p : Nat),
      (launch_native_witness_node w p true).nativePids = p :: w.nativePids ∧
      (launch_native_witness_node w p true).pidFile = some p ∧
      (launch_native_witness_node w p true).dockerNode = w.dockerNode) :=
  ⟨fun _ => ⟨rfl, rfl, rfl⟩, fun _ _ => ⟨rfl, rfl, rfl⟩⟩

/-- Claim C5 (corrected), counterexample: after a successful run the keys are
retrievable, but starting a later run clears them — `/get-keys` then
reports "not available" although a successful run exists. -/
theorem c5_restart_clears_keys_counterexample :
    get_keys (finish_process (start_process ⟨none, false⟩).1 (some ("PUB1", "WIF1"))) =
      some ("PUB1", "WIF1") ∧
    get_keys (start_process
      (finish_process (start_process ⟨none, false⟩).1 (some ("PUB1", "WIF1")))).1 =
      none := ⟨rfl, rfl⟩

/-- Claim C5 (amended): `/get-keys` returns the last successful run's keypair
only as long as no newer run has been started: starting the next run
clears the stored keys, so after a later run is started — or started and
then fails — the earlier success's keypair is no longer retrievable. -/
theorem c5_amended_keys_until_next_start :
    ∀ (s : WebState) (k : String × String), s.running = false →
      get_keys (finish_process (start_process s).1 (some k)) = some k ∧
      get_keys (start_process (finish_process (start_process s).1 (some k))).1 = none ∧
      get_keys (finish_process
        (start_process (finish_process (start_process s).1 (some k))).1 none) = none :=
  fun _ _ _ => ⟨rfl, rfl, rfl⟩

/-- Witness for `c5_amended_keys_until_next_start` at the initial state. -/
theorem c5_amended_keys_until_next_start_witness :
    get_keys (finish_process (start_process ⟨none, false⟩).1 (some ("P", "W"))) =
      some ("P", "W") ∧
    get_keys (start_process
      (finish_process (start_process ⟨none, false⟩).1 (some ("P", "W")))).1 = none ∧
    get_keys (finish_process
      (start_process (finish_process (start_process ⟨none, false⟩).1 (some ("P", "W")))).1
        none) = none :=
  c5_amended_keys_until_next_start ⟨none, false⟩ ("P", "W") rfl

/-- Claim C7 (confirmed): whenever the verification step's wallet stdout
contains `"Invalid private key"` or `"exception"`, `perform_key_rotation`
returns the failure triple immediately — for every value of the remaining
environment (witness-id text, key generation, authorization, relaunch),
so no later step influences the outcome, regardless of identifier-like
substrings in the same output. -/
theorem c7_invalid_key_aborts :
    ∀ env : RotationEnv,
      strContains (pyStrip env.verify_stdout) "Invalid private key" = true ∨
      strContains (pyStrip env.verify_stdout) "exception" = true →
      perform_key_rotation env = .ok (false, none, none) := by
  intro env h
  have hv : verifyFails (pyStrip env.verify_stdout) = true := by
    unfold verifyFails
    rcases h with h | h <;> simp [h]
  unfold perform_key_rotation
  simp [hv]

/-- Witness for `c7_invalid_key_aborts`: an environment whose verification
output contains both the marker and the identifier-like text `1.6.99`,
and whose later steps would all succeed. -/
theorem c7_invalid_key_aborts_witness :
    perform_key_rotation envInvalidKey = .ok (false, none, none) :=
  c7_invalid_key_aborts envInvalidKey (Or.inl (by decide))

/-- Claim C9 (confirmed): every normal return of `perform_key_rotation`
carries the new keypair exactly when it reports success — each failure
path returns `success = false` with both keys `None`, and the success path
returns `success = true` with both keys present. -/
theorem c9_success_iff_keys :
    ∀ (env : RotationEnv) (success : Bool) (pk wk : Option Json),
      perform_key_rotation env = .ok (success, pk, wk) →
      (success = true ∧ (∃ p, pk = some p) ∧ (∃ w, wk = some w)) ∨
      (success = false ∧ pk = none ∧ wk = none) := by
  intro env success pk wk h
  simp only [perform_key_rotation] at h
  by_cases hv : verifyFails (pyStrip env.verify_stdout) = true
  · rw [if_pos hv] at h
    simp only [Except.ok.injEq, Prod.mk.injEq] at h
    exact Or.inr ⟨h.1.symm, h.2.1.symm, h.2.2.symm⟩
  · rw [if_neg hv] at h
    cases hw : extract_witness_id (pyStrip env.verify_stdout) <;> rw [hw] at h
    · simp only [Except.ok.injEq, Prod.mk.injEq] at h
      exact Or.inr ⟨h.1.symm, h.2.1.symm, h.2.2.symm⟩
    · cases hk : parseNewKeys (pyStrip env.keygen_stdout) <;> rw [hk] at h
      · exact absurd h (by simp)
      · rename_i o
        cases o with
        | none =>
          simp only [Except.ok.injEq, Prod.mk.injEq] at h
          exact Or.inr ⟨h.1.symm, h.2.1.symm, h.2.2.symm⟩
        | some pw =>
          obtain ⟨p, w⟩ := pw
          dsimp only at h
          by_cases ha :
              authRejected (pyStrip env.auth_stdout) (pyStrip env.auth_stderr) = true
          · rw [if_pos ha] at h
            simp only [Except.ok.injEq, Prod.mk.injEq] at h
            exact Or.inr ⟨h.1.symm, h.2.1.symm, h.2.2.symm⟩
          · rw [if_neg ha] at h
            simp only [Except.ok.injEq, Prod.mk.injEq] at h
            exact Or.inl ⟨h.1.symm, ⟨p, h.2.1.symm⟩, ⟨w, h.2.2.symm⟩⟩

/-- Witness for `c9_success_iff_keys` at the all-steps-succeed
environment. -/
theorem c9_success_iff_keys_witness :
    (true = true ∧ (∃ p, some (Json.str "PUB1") = some p) ∧
      (∃ w, some (Json.str "WIF1") = some w)) ∨
    (true = false ∧ some (Json.str "PUB1") = (none : Option Json) ∧
      some (Json.str "WIF1") = (none : Option Json)) :=
  c9_success_iff_keys envRelaunchFail true (some (Json.str "PUB1"))
    (some (Json.str "WIF1")) rfl

/-- Claim C3 (corrected), counterexample: an authorization output whose
stdout is `"EXCEPTION"` contains the marker `"exception"` under a
case-insensitive scan, so the claim demands `TxRejected` — but the code's
scan for `"exception"` is case-sensitive (only `"error"` is lowercased),
and the rotation reports success. -/
theorem c3_auth_scan_counterexample :
    strContains (pyLower (pyStrip envAuthUpperExc.auth_stdout)) "exception" = true ∧
    perform_key_rotation envAuthUpperExc =
      .ok (true, some (Json.str "PUB1"), some (Json.str "WIF1")) :=
  ⟨by decide, rfl⟩

/-- Claim C3 (amended): in a run that passes verification and key
generation, the authorization step succeeds iff its stdout does not
contain `"exception"` (case-sensitive) and neither stream contains
`"error"` after lowercasing; stderr is never scanned for `"exception"`. -/
theorem c3_amended_auth_markers :
    (∀ env : RotationEnv,
      verifyFails (pyStrip env.verify_stdout) = false →
      (extract_witness_id (pyStrip env.verify_stdout)).isSome →
      (∃ pw, parseNewKeys (pyStrip env.keygen_stdout) = .ok (some pw)) →
      ((∃ p w, perform_key_rotation env = .ok (true, some p, some w)) ↔
        authRejected (pyStrip env.auth_stdout) (pyStrip env.auth_stderr) = false)) ∧
    (∀ aout aerr : String,
      authRejected aout aerr = false ↔
        (strContains aout "exception" = false ∧
         strContains (pyLower aout) "error" = false ∧
         strContains (pyLower aerr) "error" = false)) := by
  constructor
  · intro env h1 h2 h3
    obtain ⟨wid, hw⟩ := Option.isSome_iff_exists.mp h2
    obtain ⟨⟨p, w⟩, hk⟩ := h3
    have hcomp : perform_key_rotation env =
        if authRejected (pyStrip env.auth_stdout) (pyStrip env.auth_stderr) = true then
          .ok (false, none, none)
        else .ok (true, some p, some w) := by
      simp only [perform_key_rotation]
      rw [if_neg (by simp [h1]), hw, hk]
    constructor
    · rintro ⟨p', w', hok⟩
      rw [hcomp] at hok
      by_cases ha : authRejected (pyStrip env.auth_stdout) (pyStrip env.auth_stderr) = true
      · rw [if_pos ha] at hok
        simp at hok
      · simpa using ha
    · intro ha0
      rw [hcomp, if_neg (by simp [ha0])]
      exact ⟨p, w, rfl⟩
  · intro aout aerr
    unfold authRejected
    simp [Bool.or_eq_false_iff, and_assoc]

/-- Witness for `c3_amended_auth_markers` at the all-clean environment. -/
theorem c3_amended_auth_markers_witness :
    (∃ p w, perform_key_rotation envRelaunchFail = .ok (true, some p, some w)) ↔
      authRejected (pyStrip envRelaunchFail.auth_stdout)
        (pyStrip envRelaunchFail.auth_stderr) = false :=
  c3_amended_auth_markers.1 envRelaunchFail (by decide) (by decide)
    ⟨(Json.str "PUB1", Json.str "WIF1"), rfl⟩

/-- Claim C6 (confirmed): `extract_witness_id` applies the three extraction
tiers in strict order of preference — any hit of the JSON-record tier is
the answer; the whole-output regex tier is consulted only when the first
tier misses; the bare-substring tier only when both miss — and on the
claim's shapes: a structured record line with id `1.6.42` yields `1.6.42`,
output with no structured record but bare text `1.6.99` yields `1.6.99`
via the fallback, and output where all three tiers miss yields no
identifier. -/
theorem c6_extract_witness_id_tiers :
    (∀ (s : String) (i : String),
      witnessIdJsonTier s = some i → extract_witness_id s = some i) ∧
    (∀ (s : String) (i : String), witnessIdJsonTier s = none →
      witnessIdRegexTier s = some i → extract_witness_id s = some i) ∧
    (∀ s : String, witnessIdJsonTier s = none → witnessIdRegexTier s = none →
      extract_witness_id s = witnessIdBareTier s) ∧
    extract_witness_id "\x7b\"id\": \"1.6.42\", \"witness_account\": \"1.2.5\"\x7d" =
      some "1.6.42" ∧
    extract_witness_id "result: 1.6.99 pending" = some "1.6.99" ∧
    extract_witness_id "no witness data" = none := by
  refine ⟨?_, ?_, ?_, by decide, by decide, by decide⟩
  · intro s i h1
    unfold extract_witness_id
    rw [h1]
  · intro s i h1 h2
    unfold extract_witness_id
    rw [h1, h2]
  · intro s h1 h2
    unfold extract_witness_id
    rw [h1, h2]

/-- Witness for `c6_extract_witness_id_tiers`: the regex tier is consulted
(and answers) on output with no structured record line. -/
theorem c6_extract_witness_id_tiers_witness :
    extract_witness_id "account x \"id\": \"1.6.8\" y" = some "1.6.8" :=
  c6_extract_witness_id_tiers.2.1 "account x \"id\": \"1.6.8\" y" "1.6.8"
    (by decide) (by decide)

/-- The polling loop reports synced exactly when one of its remaining
probes is in the freshness window. -/
theorem monitorNativeGo_eq_synced_iff (now : Int) (probes : Nat → Probe) :
    ∀ fuel attempt : Nat,
      (monitorNativeGo now probes fuel attempt = .synced ↔
        ∃ i, i < fuel ∧ probeInWindow now (probes (attempt + i)) = true) := by
  intro fuel
  induction fuel with
  | zero => intro attempt; simp [monitorNativeGo]
  | succ n ih =>
    intro attempt
    unfold monitorNativeGo
    by_cases h0 : probeInWindow now (probes attempt) = true
    · rw [if_pos h0]
      exact ⟨fun _ => ⟨0, by omega, by simpa using h0⟩, fun _ => rfl⟩
    · rw [if_neg h0, ih (attempt + 1)]
      constructor
      · rintro ⟨i, hi, ht⟩
        refine ⟨i + 1, by omega, ?_⟩
        have he : attempt + (i + 1) = attempt + 1 + i := by omega
        rw [he]; exact ht
      · rintro ⟨i, hi, ht⟩
        cases i with
        | zero => rw [Nat.add_zero] at ht; exact absurd ht h0
        | succ j =>
          refine ⟨j, by omega, ?_⟩
          have he : attempt + 1 + j = attempt + (j + 1) := by omega
          rw [he]; exact ht

/-- The polling loop only looks at the probes it actually issues. -/
theorem monitorNativeGo_congr (now : Int) (p q : Nat → Probe) :
    ∀ fuel attempt : Nat, (∀ i, i < fuel → p (attempt + i) = q (attempt + i)) →
      monitorNativeGo now p fuel attempt = monitorNativeGo now q fuel attempt := by
  intro fuel
  induction fuel with
  | zero => intro attempt _; rfl
  | succ n ih =>
    intro attempt h
    unfold monitorNativeGo
    have h0 : p attempt = q attempt := by
      have := h 0 (by omega)
      rwa [Nat.add_zero] at this
    rw [h0]
    by_cases hq : probeInWindow now (q attempt) = true
    · rw [if_pos hq, if_pos hq]
    · rw [if_neg hq, if_neg hq]
      refine ih (attempt + 1) fun i hi => ?_
      have := h (i + 1) (by omega)
      have he : attempt + (i + 1) = attempt + 1 + i := by omega
      rwa [he] at this

/-- Claim C8 (confirmed): the polling sync monitor issues at most 120 probes
(its result is unchanged by anything past the 120th), and on every probe
stream in which no sample within the first 120 enters the 300-second
freshness window it terminates with the soft-timeout report — a normal
return, never a hang or an exception (the model is a total function). -/
theorem c8_polling_bounded_soft_timeout :
    (∀ (now : Int) (probes : Nat → Probe),
      (∀ i, i < 120 → probeInWindow now (probes i) = false) →
      monitor_native_node_sync now probes = .softTimeout) ∧
    (∀ (now : Int) (p q : Nat → Probe), (∀ i, i < 120 → p i = q i) →
      monitor_native_node_sync now p = monitor_native_node_sync now q) := by
  constructor
  · intro now probes h
    unfold monitor_native_node_sync
    cases hres : monitorNativeGo now probes 120 0 with
    | softTimeout => rfl
    | synced =>
      obtain ⟨i, hi, ht⟩ := (monitorNativeGo_eq_synced_iff now probes 120 0).mp hres
      rw [Nat.zero_add] at ht
      exact absurd ht (by simp [h i hi])
  · intro now p q h
    unfold monitor_native_node_sync
    exact monitorNativeGo_congr now p q 120 0 fun i hi => by
      simpa using h i hi

/-- Witness for `c8_polling_bounded_soft_timeout`: a stream whose every
probe reports the transport-error marker (node never ready) exhausts the
120 attempts and soft-times out. -/
theorem c8_polling_bounded_soft_timeout_witness :
    monitor_native_node_sync 0 (fun _ => probeNotReady) = .softTimeout :=
  c8_polling_bounded_soft_timeout.1 0 (fun _ => probeNotReady) fun _ _ => rfl

/-- The repeated-salt keystream has exactly the requested length. -/
theorem xorKeystream_length (salt : List Nat) (n : Nat) (hs : salt.length = 32) :
    (xorKeystream salt n).length = n := by
  unfold xorKeystream
  rw [List.length_take, List.length_flatten, List.map_replicate, hs, List.sum_replicate,
    smul_eq_mul]
  have : n < (n / 32 + 1) * 32 := by omega
  omega

/-- XORing twice against the same keystream is the identity. -/
theorem xor_zip_cancel :
    ∀ (xs ks : List Nat), xs.length ≤ ks.length →
      ((((xs.zip ks).map fun ab => ab.1 ^^^ ab.2).zip ks).map fun ab => ab.1 ^^^ ab.2) =
        xs := by
  intro xs
  induction xs with
  | nil => intro ks _; simp
  | cons a xs ih =>
    intro ks hk
    cases ks with
    | nil => simp at hk
    | cons b ks =>
      simp only [List.zip_cons_cons, List.map_cons]
      rw [ih ks (by simpa using hk)]
      congr 1
      rw [Nat.xor_assoc, Nat.xor_self, Nat.xor_zero]

/-- Claim C10 (confirmed): for every password byte string and every 32-byte
salt chosen at write time, reading back the file written by
`create_secure_password_file` returns exactly the original password — the
salt-repeating XOR encoding is self-inverse. -/
theorem c10_password_file_roundtrip :
    ∀ (password_bytes salt : List Nat), salt.length = 32 →
      read_secure_password_file (create_secure_password_file password_bytes salt) =
        some password_bytes := by
  intro pw salt hs
  unfold create_secure_password_file read_secure_password_file
  dsimp only
  have hkslen : (xorKeystream salt pw.length).length = pw.length :=
    xorKeystream_length salt pw.length hs
  have henclen :
      ((pw.zip (xorKeystream salt pw.length)).map fun ab => ab.1 ^^^ ab.2).length =
        pw.length := by
    rw [List.length_map, List.length_zip, hkslen, Nat.min_self]
  have hdata :
      (salt ++ (pw.zip (xorKeystream salt pw.length)).map fun ab => ab.1 ^^^ ab.2).length =
        32 + pw.length := by
    rw [List.length_append, hs, henclen]
  rw [if_neg (by omega)]
  have htake :
      (salt ++ (pw.zip (xorKeystream salt pw.length)).map fun ab => ab.1 ^^^ ab.2).take 32 =
        salt := by
    rw [← hs, List.take_left]
  have hdrop :
      (salt ++ (pw.zip (xorKeystream salt pw.length)).map fun ab => ab.1 ^^^ ab.2).drop 32 =
        (pw.zip (xorKeystream salt pw.length)).map fun ab => ab.1 ^^^ ab.2 := by
    rw [← hs, List.drop_left]
  rw [htake, hdrop, henclen]
  rw [xor_zip_cancel pw (xorKeystream salt pw.length) (le_of_eq hkslen.symm)]

/-- Witness for `c10_password_file_roundtrip` on the bytes of `"Hello"`
and the salt `0, 1, ..., 31`. -/
theorem c10_password_file_roundtrip_witness :
    read_secure_password_file
      (create_secure_password_file [72, 101, 108, 108, 111] (List.range 32)) =
      some [72, 101, 108, 108, 111] :=
  c10_password_file_roundtrip [72, 101, 108, 108, 111] (List.range 32)
    (by simp)

/-- A line whose strip is empty triggers nothing. -/
theorem stripEmpty_no_trigger (l : String) (he : pyStrip l = "") :
    strContains (pyStrip l) "Done reindexing" = false ∧ lineBlockSample l = none := by
  unfold lineBlockSample
  rw [he]
  exact ⟨rfl, rfl⟩

/-- The log-stream monitor reports synced exactly when some line carries a
`Done reindexing` marker or an in-window block-time sample. -/
theorem monitor_docker_logs_iff (now : Int) :
    ∀ lines : List String,
      monitor_docker_logs now lines = true ↔
        ∃ l ∈ lines, strContains (pyStrip l) "Done reindexing" = true ∨
          ∃ t, lineBlockSample l = some t ∧ (now - t).natAbs < 300 := by
  intro lines
  induction lines with
  | nil => simp [monitor_docker_logs]
  | cons l rest ih =>
    simp only [monitor_docker_logs]
    by_cases he : pyStrip l = ""
    · rw [if_pos he, ih]
      constructor
      · rintro ⟨l', hl', h⟩
        exact ⟨l', List.mem_cons_of_mem _ hl', h⟩
      · rintro ⟨l', hl', h⟩
        rcases List.mem_cons.mp hl' with rfl | hl'
        · obtain ⟨hm, hs⟩ := stripEmpty_no_trigger l' he
          rcases h with h | ⟨t, ht, _⟩
          · rw [hm] at h; exact absurd h (by simp)
          · rw [hs] at ht; exact absurd ht (by simp)
        · exact ⟨l', hl', h⟩
    · rw [if_neg he]
      by_cases hm : strContains (pyStrip l) "Done reindexing" = true
      · rw [if_pos hm]
        exact ⟨fun _ => ⟨l, List.mem_cons_self l rest, Or.inl hm⟩, fun _ => rfl⟩
      · rw [if_neg hm]
        have hmf : strContains (pyStrip l) "Done reindexing" = false :=
          Bool.not_eq_true _ ▸ (by simpa using hm)
        cases hc : handleBlockCapture (pyStrip l) with
        | none =>
          dsimp only
          have hs : lineBlockSample l = none := by simp [lineBlockSample, hc]
          rw [ih]
          constructor
          · rintro ⟨l', hl', h⟩
            exact ⟨l', List.mem_cons_of_mem _ hl', h⟩
          · rintro ⟨l', hl', h⟩
            rcases List.mem_cons.mp hl' with rfl | hl'
            · rcases h with h | ⟨t, ht, _⟩
              · exact absurd h hm
              · rw [hs] at ht; exact absurd ht (by simp)
            · exact ⟨l', hl', h⟩
        | some ts =>
          dsimp only
          cases hp : parseBlockTime ts with
          | none =>
            have hs : lineBlockSample l = none := by
              simp [lineBlockSample, hc, hp]
            rw [ih]
            constructor
            · rintro ⟨l', hl', h⟩
              exact ⟨l', List.mem_cons_of_mem _ hl', h⟩
            · rintro ⟨l', hl', h⟩
              rcases List.mem_cons.mp hl' with rfl | hl'
              · rcases h with h | ⟨t, ht, _⟩
                · exact absurd h hm
                · rw [hs] at ht; exact absurd ht (by simp)
              · exact ⟨l', hl', h⟩
          | some t =>
            dsimp only
            have hs : lineBlockSample l = some t := by
              simp [lineBlockSample, hc, hp]
            by_cases hw : (now - t).natAbs < 300
            · rw [if_pos hw]
              exact ⟨fun _ => ⟨l, List.mem_cons_self l rest, Or.inr ⟨t, hs, hw⟩⟩,
                fun _ => rfl⟩
            · rw [if_neg hw, ih]
              constructor
              · rintro ⟨l', hl', h⟩
                exact ⟨l', List.mem_cons_of_mem _ hl', h⟩
              · rintro ⟨l', hl', h⟩
                rcases List.mem_cons.mp hl' with rfl | hl'
                · rcases h with h | ⟨t', ht', hw'⟩
                  · exact absurd h hm
                  · rw [hs] at ht'
                    obtain rfl : t = t' := by injection ht'
                    exact absurd hw' hw
                · exact ⟨l', hl', h⟩

/-- One probe is in the window exactly when its sample parses and lies
within 300 seconds of `now`. -/
theorem probeInWindow_iff (now : Int) (p : Probe) :
    probeInWindow now p = true ↔
      ∃ t, probeSample p = some t ∧ (now - t).natAbs < 300 := by
  unfold probeInWindow
  cases h : probeSample p with
  | none => simp
  | some t => simp

/-- Claim C4 (corrected), counterexample: the log-stream monitor reports
synced on a stream consisting of the single line `"Done reindexing"`,
although that observation yields no parsed block-time sample at all — so
"synced only if some sample is within the 300-second window" fails. -/
theorem c4_reindex_marker_counterexample :
    monitor_docker_logs 0 ["Done reindexing"] = true ∧
    lineBlockSample "Done reindexing" = none := ⟨by decide, by decide⟩

/-- Claim C4 (amended): the polling monitor reports synced iff some
observed probe (within the 120-attempt bound) yields a parsed
head-block-time within 300 seconds of `now`; the log-stream monitor
reports synced iff some observed line either yields such a sample **or
carries the explicit `Done reindexing` marker**.  Observations whose
timestamp fails to parse yield no sample (`lineBlockSample`/`probeSample`
is `none`), so they cannot stop monitoring — it continues instead of
aborting. -/
theorem c4_amended_sync_iff :
    (∀ (now : Int) (lines : List String),
      monitor_docker_logs now lines = true ↔
        ∃ l ∈ lines, strContains (pyStrip l) "Done reindexing" = true ∨
          ∃ t, lineBlockSample l = some t ∧ (now - t).natAbs < 300) ∧
    (∀ (now : Int) (probes : Nat → Probe),
      monitor_native_node_sync now probes = .synced ↔
        ∃ i, i < 120 ∧ ∃ t, probeSample (probes i) = some t ∧
          (now - t).natAbs < 300) := by
  constructor
  · exact fun now lines => monitor_docker_logs_iff now lines
  · intro now probes
    unfold monitor_native_node_sync
    rw [monitorNativeGo_eq_synced_iff now probes 120 0]
    constructor
    · rintro ⟨i, hi, ht⟩
      rw [Nat.zero_add] at ht
      exact ⟨i, hi, (probeInWindow_iff now (probes i)).mp ht⟩
    · rintro ⟨i, hi, ht⟩
      refine ⟨i, hi, ?_⟩
      rw [Nat.zero_add]
      exact (probeInWindow_iff now (probes i)).mpr ht
